import Mathlib

/-!
Shallow embedding of the position-lifecycle core of the kolopovstrategy
trading bot (src/core/trailing_stop.py, src/utils/error_handler.py,
src/position_manager.py, src/positions_guard.py) and proofs about it.

Modelling conventions:
* Python floats are modelled as exact rationals.
* Python str.lower is modelled per character (the source only lowercases
  ASCII side and mode strings).
* Venue calls are modelled by their observable outcome: the response code
  they return, or a flag telling whether the call raised.
* The module-level Python dictionaries holding one-shot flags are modelled
  as association lists of the keys that are present.
-/

attribute [local semireducible] Rat.mul Rat.add Rat.sub Rat.inv Rat.ofScientific

-- Python max(a, b) on rationals.
def pyMax (a b : ℚ) : ℚ := if a ≤ b then b else a

-- Python min(a, b) on rationals.
def pyMin (a b : ℚ) : ℚ := if a ≤ b then a else b

-- Python str.lower for the ASCII strings the source compares.
def pyLower (s : String) : String := ⟨s.data.map Char.toLower⟩

namespace ErrorHandler

/-- Error classes raised by handle_bybit_error (src/utils/error_handler.py):
BybitRateLimit, BybitNotModified, BybitInvalidParams, BybitAuthError,
BybitInsufficientMargin, and the base BybitAPIError (also used for the
explicit 110009 / 110033 cases and the fallback). -/
inductive ErrKind where
  | rateLimit
  | notModified
  | invalidParams
  | authError
  | insufficientMargin
  | apiError
  deriving DecidableEq

/-- Outcome of handle_bybit_error: returned normally treating the response as
success, returned normally after logging a not-modified response at info
level, or raised one of the exception classes. -/
inductive HandleResult where
  | ok
  | okNotModified
  | raised (k : ErrKind)
  deriving DecidableEq

-- _IGNORE_AS_SUCCESS_DEFAULT (error_handler.py lines 64-69).
def ignore_as_success_default : List Int := [110043, 34040]

-- _RETRYABLE_CODES (lines 72-81).
def retryable_codes : List Int := [10006, 10016, 170007, 148019, 170146, 170147]

-- _INSUFFICIENT_FUNDS_CODES (lines 84-92).
def insufficient_funds_codes : List Int := [110044, 110012, 110014, 110045, 110052]

-- _AUTH_CODES (lines 95-104).
def auth_codes : List Int := [10003, 10004, 10005, 10007, 10009, 10010]

-- _INVALID_PARAM_CODES (lines 107-112).
def invalid_param_codes : List Int := [10001, 10002]

-- ok_markers inside is_success_response (line 121).
def ok_markers : List String := ["OK", "ok", "success", "SUCCESS", ""]

-- is_success_response (lines 115-122); retMsg defaults to the empty string
-- after _normalize_ret_fields.
def is_success_response (retCode : Option Int) (retMsg : String) : Bool :=
  if retCode = some 0 then true
  else decide ((retCode = some 0 ∨ retCode = none) ∧ retMsg ∈ ok_markers)

-- is_retryable (lines 125-126).
def is_retryable (retCode : Option Int) : Bool :=
  match retCode with
  | some c => decide (c ∈ retryable_codes)
  | none => false

/-- handle_bybit_error (error_handler.py lines 129-263).  httpStatus models
the optional injected _http_status field; retCode and retMsg are the
normalized response fields.  The explicit 110009 and 110033 branches and the
fallback all raise the base BybitAPIError class, folded into ErrKind.apiError. -/
def handle_bybit_error (httpStatus : Option Nat) (retCode : Option Int)
    (retMsg : String) (ignoreCodes : List Int) (raiseOnNotModified : Bool) :
    HandleResult :=
  if httpStatus = some 429 then .raised .rateLimit
  else if is_success_response retCode retMsg then .ok
  else
    match retCode with
    | none => .raised .apiError
    | some c =>
      if c ∈ ignore_as_success_default ∨ c ∈ ignoreCodes then
        if raiseOnNotModified then .raised .notModified else .okNotModified
      else if c ∈ invalid_param_codes then .raised .invalidParams
      else if c ∈ auth_codes then .raised .authError
      else if c ∈ insufficient_funds_codes then .raised .insufficientMargin
      else if c ∈ retryable_codes then .raised .rateLimit
      else .raised .apiError

end ErrorHandler

namespace TrailingStop

/-- The retCode field of a Bybit response as read by _assert_ok
(trailing_stop.py lines 39-52): an integer, a string, or absent (none). -/
inductive RetCode where
  | int (n : Int)
  | str (s : String)
  deriving DecidableEq

-- Python str(rc) for a present retCode.
def RetCode.pyStr : RetCode → String
  | .int n => toString n
  | .str s => s

/-- Whether a call raised, modelled as an Except value: error () stands for a
raised exception. -/
def assert_ok (retCode : Option RetCode) : Except Unit Unit :=
  if retCode = none ∨ retCode = some (.int 0) ∨ retCode = some (.str "0") then .ok ()
  else if retCode.map RetCode.pyStr = some "110043" then .ok ()
  else .error ()

/-- Observable outcome of the retry loop shared by set_trailing_stop_ccxt
(lines 162-171) and set_stop_loss_only (lines 214-223): whether a response was
returned (ok) or the last exception propagated, how many attempts were made,
and how many backoff sleeps were performed. -/
structure SendOutcome where
  ok : Bool
  attempts : Nat
  sleeps : Nat
  deriving DecidableEq

/-- The body of: for attempt in range(1, max_retries + 1): try send and
_assert_ok, return resp; except: if attempt >= max_retries re-raise, else
_backoff_sleep(attempt).  respAt n is the response code of the n-th attempt;
the remaining argument counts the attempts still allowed, current included. -/
def send_loop (respAt : Nat → Option RetCode) (attempt : Nat) :
    Nat → SendOutcome
  | 0 => ⟨false, 0, 0⟩
  | remaining + 1 =>
    match assert_ok (respAt attempt) with
    | .ok _ => ⟨true, 1, 0⟩
    | .error _ =>
      if remaining = 0 then ⟨false, 1, 0⟩
      else
        let rest := send_loop respAt (attempt + 1) remaining
        ⟨rest.ok, rest.attempts + 1, rest.sleeps + 1⟩

-- The full retry loop, attempts numbered from 1 up to maxRetries.
def send_with_retries (respAt : Nat → Option RetCode) (maxRetries : Nat) :
    SendOutcome :=
  send_loop respAt 1 maxRetries

-- _position_idx_for_side (trailing_stop.py lines 33-36); side may be None.
def position_idx_for_side (side : Option String) : Nat :=
  if pyLower (side.getD "") = "long" ∨ pyLower (side.getD "") = "buy" then 1 else 2

/-- positionIdx resolution shared by set_trailing_stop_ccxt (lines 145-146)
and set_stop_loss_only (lines 201-202): when position_idx is None or 0 it is
replaced by _position_idx_for_side(side). -/
def resolve_position_idx (position_idx : Option Nat) (side : Option String) : Nat :=
  match position_idx with
  | none => position_idx_for_side side
  | some i => if i = 0 then position_idx_for_side side else i

/-- move_stop_loss (lines 227-244) forwards position_idx = 0 and no side
argument to set_stop_loss_only, so this is the positionIdx it submits. -/
def move_stop_loss_position_idx : Nat := resolve_position_idx (some 0) none

-- The payload carries positionIdx as a decimal string (str(position_idx)).
def payload_position_idx (positionIdx : Nat) : String := toString positionIdx

/-- compute_trailing_from_atr (trailing_stop.py lines 250-280).  Returns
(activation_price, callback_rate_pct). -/
def compute_trailing_from_atr (entry : ℚ) (side : String) (atr : ℚ)
    (k_activate min_up_pct min_down_pct cb_from_atr_k cb_fixed_pct : ℚ)
    (auto_cb : Bool) : ℚ × ℚ :=
  let side_l := pyLower side
  let activation_price :=
    if side_l = "long" ∨ side_l = "buy" then
      entry + pyMax (k_activate * atr) (entry * min_up_pct)
    else
      entry - pyMax (k_activate * atr) (entry * min_down_pct)
  let cb :=
    if auto_cb then
      let c := 100 * (cb_from_atr_k * atr / pyMax entry (1 / 10 ^ 12))
      pyMax (1 / 10) (pyMin c 5)
    else cb_fixed_pct
  (activation_price, cb)

/-- maybe_breakeven (trailing_stop.py lines 283-318).  In atr mode, when the
trigger is not reached, control falls through to the percent-mode comparison
at line 310, which reads the local variable need that was never assigned in
that branch: for a long/buy or short/sell side this raises UnboundLocalError,
modelled as Except.error ().  For any other side both conjuncts at line 310
short-circuit before reading need and the function returns None. -/
def maybe_breakeven (entry : ℚ) (side : String) (last atr : ℚ)
    (be_mode : String) (be_atr_k be_trigger_pct be_offset_pct : ℚ) :
    Except Unit (Option ℚ) :=
  let side_l := pyLower side
  let isLongish := side_l = "long" ∨ side_l = "buy"
  let isShortish := side_l = "short" ∨ side_l = "sell"
  if be_mode = "atr" then
    let in_profit := if isLongish then last - entry else entry - last
    if be_atr_k * atr ≤ in_profit then
      .ok (some (if isLongish then entry * (1 + be_offset_pct)
                 else entry * (1 - be_offset_pct)))
    else if isLongish ∨ isShortish then .error ()
    else .ok none
  else
    let need := entry * be_trigger_pct
    if (isLongish ∧ entry + need ≤ last) ∨ (isShortish ∧ last ≤ entry - need) then
      .ok (some (if isLongish then entry * (1 + be_offset_pct)
                 else entry * (1 - be_offset_pct)))
    else .ok none

end TrailingStop

namespace PositionManager

-- order_side in open_position (position_manager.py line 82).
def order_side_of (side : String) : String :=
  if pyLower side = "long" then "buy" else "sell"

-- stop_dist = max(atr * sl_mult, 1e-9) (position_manager.py line 104).
def entry_stop_dist (atr sl_mult : ℚ) : ℚ := pyMax (atr * sl_mult) (1 / 10 ^ 9)

/-- Entry stop-loss of open_position (position_manager.py lines 120-126):
SL = px - stop_dist for a buy, px + stop_dist for a sell.  The external
price_to_precision rounding capability is modelled as the identity. -/
def entry_sl_price (px atr sl_mult : ℚ) (order_side : String) : ℚ :=
  if order_side = "buy" then px - entry_stop_dist atr sl_mult
  else px + entry_stop_dist atr sl_mult

-- Entry take-profit of open_position (same lines): px plus or minus tp_mult * atr.
def entry_tp_price (px atr tp_mult : ℚ) (order_side : String) : ℚ :=
  if order_side = "buy" then px + tp_mult * atr else px - tp_mult * atr

end PositionManager

namespace PositionsGuard

/-- The environment configuration read by maybe_partial_take_profit and
_maybe_breakeven (positions_guard.py lines 143-266): PARTIAL_TP_ENABLE,
PARTIAL_TP_PART, PARTIAL_TP_R_MULT, ENABLE_BREAKEVEN, BE_MODE, BE_OFFSET_PCT,
BE_EPSILON_PCT, BE_ATR_K, BE_TRIGGER_PCT. -/
structure GuardCfg where
  ptpEnable : Bool
  ptpPart : ℚ
  ptpRMult : ℚ
  beEnable : Bool
  beMode : String
  beOffsetPct : ℚ
  beEps : ℚ
  beAtrK : ℚ
  beTriggerPct : ℚ
  deriving DecidableEq

/-- The module-level dictionaries _BE_DONE and _PTP_DONE (positions_guard.py
lines 113-116), modelled as the lists of (symbol, side) keys mapped to True. -/
structure GuardMem where
  beDone : List (String × String)
  ptpDone : List (String × String)
  deriving DecidableEq

/-- The clamped break-even candidate be_raw of _maybe_breakeven
(positions_guard.py lines 238-248): for a long/buy side
min(entry * (1 + offset), entry * (1 - eps)), otherwise
max(entry * (1 - offset), entry * (1 + eps)).  sid is already lowercased. -/
def be_candidate (entryPx : ℚ) (sid : String) (beOffsetPct eps : ℚ) : ℚ :=
  if sid = "long" ∨ sid = "buy" then
    pyMin (entryPx * (1 + beOffsetPct)) (entryPx * (1 - eps))
  else
    pyMax (entryPx * (1 - beOffsetPct)) (entryPx * (1 + eps))

/-- The should_move trigger of _maybe_breakeven (positions_guard.py lines
217-233); sid is already lowercased. -/
def be_should_move (cfg : GuardCfg) (sid : String) (entryPx cur atr : ℚ) : Bool :=
  if cfg.beMode = "atr" then
    if 0 < atr then
      if sid = "long" ∨ sid = "buy" then decide (entryPx + cfg.beAtrK * atr ≤ cur)
      else decide (cur ≤ entryPx - cfg.beAtrK * atr)
    else false
  else
    if sid = "long" ∨ sid = "buy" then
      decide (entryPx * (1 + cfg.beTriggerPct) ≤ cur)
    else decide (cur ≤ entryPx * (1 - cfg.beTriggerPct))

/-- _maybe_breakeven (positions_guard.py lines 195-266) as a state
transformer on the flag memory.  The second component is some p when
set_stop_loss_only was invoked with stop price p (price_to_precision is
modelled as the identity), none when the function returned without calling
the venue.  callOk tells whether the set_stop_loss_only call returned without
raising; only then is the _BE_DONE flag recorded (lines 262-266). -/
def be_guard (cfg : GuardCfg) (mem : GuardMem) (symbol : String) (entryPx : ℚ)
    (side : String) (cur atr : ℚ) (callOk : Bool) : GuardMem × Option ℚ :=
  if cfg.beEnable = false then (mem, none) else
  if (symbol, pyLower side) ∈ mem.beDone then (mem, none) else
  if be_should_move cfg (pyLower side) entryPx cur atr = false then (mem, none) else
  if callOk then
    ({ mem with beDone := (symbol, pyLower side) :: mem.beDone },
      some (be_candidate entryPx (pyLower side) cfg.beOffsetPct cfg.beEps))
  else (mem, some (be_candidate entryPx (pyLower side) cfg.beOffsetPct cfg.beEps))

-- The 1R trigger of maybe_partial_take_profit (positions_guard.py line 167).
def ptp_passed (sideL : String) (entryPx atr rMult cur : ℚ) : Bool :=
  if sideL = "long" then decide (entryPx + atr * rMult ≤ cur)
  else decide (cur ≤ entryPx - atr * rMult)

/-- maybe_partial_take_profit (positions_guard.py lines 143-193) as a state
transformer on the flag memory.  The second component is true when
create_order (reduce-only market) was invoked; callOk tells whether that call
returned without raising, and only then is the _PTP_DONE flag recorded
(lines 188-193).  amount_to_precision is modelled as the identity. -/
def ptp_guard (cfg : GuardCfg) (mem : GuardMem) (symbol : String) (entryPx : ℚ)
    (side : String) (atr cur qtyAbs : ℚ) (callOk : Bool) : GuardMem × Bool :=
  if cfg.ptpEnable = false then (mem, false) else
  if ¬ (pyLower side = "long" ∨ pyLower side = "short") then (mem, false) else
  if (symbol, pyLower side) ∈ mem.ptpDone then (mem, false) else
  if atr ≤ 0 ∨ entryPx ≤ 0 then (mem, false) else
  if ptp_passed (pyLower side) entryPx atr cfg.ptpRMult cur = false then (mem, false) else
  if qtyAbs ≤ 0 then (mem, false) else
  if pyMax 0 (qtyAbs * cfg.ptpPart) ≤ 0 then (mem, false) else
  if callOk then ({ mem with ptpDone := (symbol, pyLower side) :: mem.ptpDone }, true)
  else (mem, true)

/-- What one iteration of _one_pass (positions_guard.py lines 370-464)
observes for one symbol: the venue position snapshot used by the partial-TP
block (lines 379-391), the entry price and side hint used by the maintenance
break-even block (lines 394-421), whether each venue write returned without
raising, and whether a new entry was opened this cycle so that
apply_trailing_after_entry calls _maybe_breakeven a second time (line 322). -/
structure CycleObs where
  hasPosition : Bool
  qtyAbs : ℚ
  posSide : String
  entryPos : ℚ
  atrPtp : ℚ
  curPtp : ℚ
  orderCallOk : Bool
  entryA : ℚ
  sideHint : String
  curBe : ℚ
  atrBe : ℚ
  slCallOk : Bool
  entryBeRuns : Bool
  entryBePx : ℚ
  entryBeSide : String
  entryBeCur : ℚ
  entryBeAtr : ℚ
  entryBeCallOk : Bool
  deriving DecidableEq

-- The partial-TP block of _one_pass (lines 379-391).
def cycle_ptp (cfg : GuardCfg) (sym : String) (mem : GuardMem) (o : CycleObs) :
    GuardMem × Bool :=
  if o.hasPosition then
    if 0 < o.qtyAbs ∧ o.posSide ≠ "" then
      ptp_guard cfg mem sym o.entryPos o.posSide o.atrPtp o.curPtp o.qtyAbs o.orderCallOk
    else (mem, false)
  else (mem, false)

-- The maintenance break-even call of _one_pass (lines 394-421).
def cycle_be_maintain (cfg : GuardCfg) (sym : String) (mem : GuardMem)
    (o : CycleObs) : GuardMem × Option ℚ :=
  if o.hasPosition ∧ 0 < o.entryA then
    be_guard cfg mem sym o.entryA o.sideHint o.curBe o.atrBe o.slCallOk
  else (mem, none)

-- The break-even call of apply_trailing_after_entry (line 322), reached only
-- when a new position was opened this cycle.
def cycle_be_entry (cfg : GuardCfg) (sym : String) (mem : GuardMem)
    (o : CycleObs) : GuardMem × Option ℚ :=
  if o.entryBeRuns then
    be_guard cfg mem sym o.entryBePx o.entryBeSide o.entryBeCur o.entryBeAtr
      o.entryBeCallOk
  else (mem, none)

/-- One polling cycle of _one_pass for one symbol, restricted to its effect
on the one-shot flag memory.  Returns the new memory, the number of
set_stop_loss_only submissions and the number of reduce-only create_order
submissions performed during the cycle. -/
def guard_cycle (cfg : GuardCfg) (sym : String) (mem : GuardMem) (o : CycleObs) :
    GuardMem × Nat × Nat :=
  let pr := cycle_ptp cfg sym mem o
  let br := cycle_be_maintain cfg sym pr.1 o
  let er := cycle_be_entry cfg sym br.1 o
  (er.1, (if br.2.isSome then 1 else 0) + (if er.2.isSome then 1 else 0),
    if pr.2 then 1 else 0)

/-- A run of polling cycles; returns the final flag memory and the total
numbers of break-even stop-loss submissions and of partial-take-profit
reduce-only orders. -/
def guard_run (cfg : GuardCfg) (sym : String) :
    GuardMem → List CycleObs → GuardMem × Nat × Nat
  | mem, [] => (mem, 0, 0)
  | mem, o :: rest =>
    let c := guard_cycle cfg sym mem o
    let r := guard_run cfg sym c.1 rest
    (r.1, c.2.1 + r.2.1, c.2.2 + r.2.2)

/-- The scenario hypotheses of the at-most-once property: across the run the
position keeps one side and every venue write returns without raising. -/
def ObsGood (side : String) (o : CycleObs) : Prop :=
  o.posSide = side ∧ o.sideHint = side ∧ o.entryBeSide = side ∧
  o.orderCallOk = true ∧ o.slCallOk = true ∧ o.entryBeCallOk = true

instance (side : String) (o : CycleObs) : Decidable (ObsGood side o) :=
  inferInstanceAs (Decidable (o.posSide = side ∧ o.sideHint = side ∧
    o.entryBeSide = side ∧ o.orderCallOk = true ∧ o.slCallOk = true ∧
    o.entryBeCallOk = true))

/-- The default environment configuration: PARTIAL_TP_ENABLE=1,
PARTIAL_TP_PART=0.5, PARTIAL_TP_R_MULT=1.0, ENABLE_BREAKEVEN=1, BE_MODE=atr,
BE_OFFSET_PCT=0.0005, BE_EPSILON_PCT=0.0001, BE_ATR_K=0.5,
BE_TRIGGER_PCT=0.004. -/
def cfg_defaults : GuardCfg :=
  ⟨true, 1/2, 1, true, "atr", 5/10000, 1/10000, 1/2, 1/250⟩

/-- A cycle observing a profitable long position: size 1, entry 100, ATR 2,
current price 110, every venue write returns without raising, no new entry
this cycle.  Field order follows CycleObs. -/
def obs_profitable : CycleObs :=
  ⟨true, 1, "long", 100, 2, 110, true, 100, "long", 110, 2, true,
    false, 0, "long", 0, 0, true⟩

/-- A cycle observing the position closed: zero size reported, no new entry
this cycle. -/
def obs_closed : CycleObs :=
  ⟨false, 0, "", 0, 0, 0, true, 0, "long", 0, 0, true,
    false, 0, "long", 0, 0, true⟩

end PositionsGuard

/-! Helper lemmas. -/

theorem pyMax_eq_max (a b : ℚ) : pyMax a b = max a b := by
  unfold pyMax
  split_ifs with h
  · exact (max_eq_right h).symm
  · exact (max_eq_left (le_of_not_le h)).symm

theorem pyMin_eq_min (a b : ℚ) : pyMin a b = min a b := by
  unfold pyMin
  split_ifs with h
  · exact (min_eq_left h).symm
  · exact (min_eq_right (le_of_not_le h)).symm

theorem le_pyMax_right (a b : ℚ) : b ≤ pyMax a b := by
  unfold pyMax
  split_ifs with h <;> linarith

theorem pyMin_le_right (a b : ℚ) : pyMin a b ≤ b := by
  unfold pyMin
  split_ifs with h <;> linarith

theorem pyMax_pos_of_right (a b : ℚ) (h : 0 < b) : 0 < pyMax a b :=
  lt_of_lt_of_le h (le_pyMax_right a b)

theorem pyMax_eq_of_le {a b : ℚ} (h : b ≤ a) : pyMax a b = a := by
  unfold pyMax
  split_ifs with h2
  · exact le_antisymm h h2
  · rfl

namespace PositionsGuard

theorem be_guard_of_done {cfg : GuardCfg} {mem : GuardMem} {symbol : String}
    {entryPx : ℚ} {side : String} {cur atr : ℚ} {callOk : Bool}
    (h : (symbol, pyLower side) ∈ mem.beDone) :
    be_guard cfg mem symbol entryPx side cur atr callOk = (mem, none) := by
  unfold be_guard
  split_ifs <;> simp_all

theorem be_guard_fst_callFalse (cfg : GuardCfg) (mem : GuardMem) (symbol : String)
    (entryPx : ℚ) (side : String) (cur atr : ℚ) :
    (be_guard cfg mem symbol entryPx side cur atr false).1 = mem := by
  unfold be_guard
  split_ifs <;> simp_all

theorem be_guard_beDone_of_some {cfg : GuardCfg} {mem : GuardMem} {symbol : String}
    {entryPx : ℚ} {side : String} {cur atr : ℚ}
    (h : (be_guard cfg mem symbol entryPx side cur atr true).2.isSome = true) :
    (be_guard cfg mem symbol entryPx side cur atr true).1.beDone =
      (symbol, pyLower side) :: mem.beDone := by
  unfold be_guard at *
  split_ifs at h ⊢ <;> simp_all

theorem be_guard_fst_of_not_issued {cfg : GuardCfg} {mem : GuardMem} {symbol : String}
    {entryPx : ℚ} {side : String} {cur atr : ℚ} {callOk : Bool}
    (h : (be_guard cfg mem symbol entryPx side cur atr callOk).2.isSome = false) :
    (be_guard cfg mem symbol entryPx side cur atr callOk).1 = mem := by
  unfold be_guard at *
  split_ifs at h ⊢ <;> simp_all

theorem be_guard_ptpDone (cfg : GuardCfg) (mem : GuardMem) (symbol : String)
    (entryPx : ℚ) (side : String) (cur atr : ℚ) (callOk : Bool) :
    (be_guard cfg mem symbol entryPx side cur atr callOk).1.ptpDone = mem.ptpDone := by
  unfold be_guard
  split_ifs <;> simp_all

theorem be_guard_mono {cfg : GuardCfg} {mem : GuardMem} {symbol : String}
    {entryPx : ℚ} {side : String} {cur atr : ℚ} {callOk : Bool}
    {k : String × String} (h : k ∈ mem.beDone) :
    k ∈ (be_guard cfg mem symbol entryPx side cur atr callOk).1.beDone := by
  unfold be_guard
  split_ifs <;> simp_all

theorem be_guard_snd_indep (cfg : GuardCfg) (mem : GuardMem) (symbol : String)
    (entryPx : ℚ) (side : String) (cur atr : ℚ) :
    (be_guard cfg mem symbol entryPx side cur atr false).2 =
      (be_guard cfg mem symbol entryPx side cur atr true).2 := by
  unfold be_guard
  split_ifs <;> simp_all

theorem be_guard_snd_eq_candidate {cfg : GuardCfg} {mem : GuardMem} {symbol : String}
    {entryPx : ℚ} {side : String} {cur atr : ℚ} {callOk : Bool} {p : ℚ}
    (h : (be_guard cfg mem symbol entryPx side cur atr callOk).2 = some p) :
    p = be_candidate entryPx (pyLower side) cfg.beOffsetPct cfg.beEps := by
  unfold be_guard at h
  split_ifs at h <;> simp_all

theorem ptp_guard_of_done {cfg : GuardCfg} {mem : GuardMem} {symbol : String}
    {entryPx : ℚ} {side : String} {atr cur qtyAbs : ℚ} {callOk : Bool}
    (h : (symbol, pyLower side) ∈ mem.ptpDone) :
    ptp_guard cfg mem symbol entryPx side atr cur qtyAbs callOk = (mem, false) := by
  unfold ptp_guard
  split_ifs <;> simp_all

theorem ptp_guard_fst_callFalse (cfg : GuardCfg) (mem : GuardMem) (symbol : String)
    (entryPx : ℚ) (side : String) (atr cur qtyAbs : ℚ) :
    (ptp_guard cfg mem symbol entryPx side atr cur qtyAbs false).1 = mem := by
  unfold ptp_guard
  split_ifs <;> simp_all

theorem ptp_guard_ptpDone_of_true {cfg : GuardCfg} {mem : GuardMem} {symbol : String}
    {entryPx : ℚ} {side : String} {atr cur qtyAbs : ℚ}
    (h : (ptp_guard cfg mem symbol entryPx side atr cur qtyAbs true).2 = true) :
    (ptp_guard cfg mem symbol entryPx side atr cur qtyAbs true).1.ptpDone =
      (symbol, pyLower side) :: mem.ptpDone := by
  unfold ptp_guard at *
  split_ifs at h ⊢ <;> simp_all

theorem ptp_guard_fst_of_not_issued {cfg : GuardCfg} {mem : GuardMem} {symbol : String}
    {entryPx : ℚ} {side : String} {atr cur qtyAbs : ℚ} {callOk : Bool}
    (h : (ptp_guard cfg mem symbol entryPx side atr cur qtyAbs callOk).2 = false) :
    (ptp_guard cfg mem symbol entryPx side atr cur qtyAbs callOk).1 = mem := by
  unfold ptp_guard at *
  split_ifs at h ⊢ <;> simp_all

theorem ptp_guard_beDone (cfg : GuardCfg) (mem : GuardMem) (symbol : String)
    (entryPx : ℚ) (side : String) (atr cur qtyAbs : ℚ) (callOk : Bool) :
    (ptp_guard cfg mem symbol entryPx side atr cur qtyAbs callOk).1.beDone =
      mem.beDone := by
  unfold ptp_guard
  split_ifs <;> simp_all

theorem ptp_guard_mono {cfg : GuardCfg} {mem : GuardMem} {symbol : String}
    {entryPx : ℚ} {side : String} {atr cur qtyAbs : ℚ} {callOk : Bool}
    {k : String × String} (h : k ∈ mem.ptpDone) :
    k ∈ (ptp_guard cfg mem symbol entryPx side atr cur qtyAbs callOk).1.ptpDone := by
  unfold ptp_guard
  split_ifs <;> simp_all

theorem ptp_guard_snd_indep (cfg : GuardCfg) (mem : GuardMem) (symbol : String)
    (entryPx : ℚ) (side : String) (atr cur qtyAbs : ℚ) :
    (ptp_guard cfg mem symbol entryPx side atr cur qtyAbs false).2 =
      (ptp_guard cfg mem symbol entryPx side atr cur qtyAbs true).2 := by
  unfold ptp_guard
  split_ifs <;> simp_all

end PositionsGuard

namespace PositionsGuard

theorem cycle_ptp_beDone (cfg : GuardCfg) (sym : String) (mem : GuardMem)
    (o : CycleObs) : (cycle_ptp cfg sym mem o).1.beDone = mem.beDone := by
  unfold cycle_ptp
  split_ifs
  · apply ptp_guard_beDone
  · rfl
  · rfl

theorem cycle_ptp_of_done {cfg : GuardCfg} {sym : String} {mem : GuardMem}
    {o : CycleObs} {side : String} (hPS : o.posSide = side)
    (h : (sym, pyLower side) ∈ mem.ptpDone) :
    cycle_ptp cfg sym mem o = (mem, false) := by
  unfold cycle_ptp
  split_ifs
  · exact ptp_guard_of_done (by rw [hPS]; exact h)
  · rfl
  · rfl

theorem cycle_ptp_issued {cfg : GuardCfg} {sym : String} {mem : GuardMem}
    {o : CycleObs} {side : String} (hPS : o.posSide = side)
    (hOK : o.orderCallOk = true) (h : (cycle_ptp cfg sym mem o).2 = true) :
    (sym, pyLower side) ∈ (cycle_ptp cfg sym mem o).1.ptpDone := by
  subst hPS
  unfold cycle_ptp at *
  split_ifs at h ⊢ <;>
    first
      | (rw [hOK] at h ⊢
         rw [ptp_guard_ptpDone_of_true h]
         exact List.mem_cons_self _ _)
      | simp at h

theorem cycle_ptp_not_issued {cfg : GuardCfg} {sym : String} {mem : GuardMem}
    {o : CycleObs} (h : (cycle_ptp cfg sym mem o).2 = false) :
    (cycle_ptp cfg sym mem o).1 = mem := by
  unfold cycle_ptp at *
  split_ifs at h ⊢ <;> first | exact ptp_guard_fst_of_not_issued h | rfl

theorem cycle_ptp_mono {cfg : GuardCfg} {sym : String} {mem : GuardMem}
    {o : CycleObs} {k : String × String} (h : k ∈ mem.ptpDone) :
    k ∈ (cycle_ptp cfg sym mem o).1.ptpDone := by
  unfold cycle_ptp
  split_ifs
  · exact ptp_guard_mono h
  · exact h
  · exact h

theorem cbm_of_done {cfg : GuardCfg} {sym : String} {mem : GuardMem}
    {o : CycleObs} {side : String} (hSH : o.sideHint = side)
    (h : (sym, pyLower side) ∈ mem.beDone) :
    cycle_be_maintain cfg sym mem o = (mem, none) := by
  unfold cycle_be_maintain
  split_ifs
  · exact be_guard_of_done (by rw [hSH]; exact h)
  · rfl

theorem cbm_beDone_of_some {cfg : GuardCfg} {sym : String} {mem : GuardMem}
    {o : CycleObs} {side : String} (hSH : o.sideHint = side)
    (hSL : o.slCallOk = true)
    (h : (cycle_be_maintain cfg sym mem o).2.isSome = true) :
    (cycle_be_maintain cfg sym mem o).1.beDone =
      (sym, pyLower side) :: mem.beDone := by
  subst hSH
  unfold cycle_be_maintain at *
  split_ifs at h ⊢ <;>
    first
      | (rw [hSL] at h ⊢
         exact be_guard_beDone_of_some h)
      | simp at h

theorem cbm_fst_of_not_issued {cfg : GuardCfg} {sym : String} {mem : GuardMem}
    {o : CycleObs} (h : (cycle_be_maintain cfg sym mem o).2.isSome = false) :
    (cycle_be_maintain cfg sym mem o).1 = mem := by
  unfold cycle_be_maintain at *
  split_ifs at h ⊢ <;> first | exact be_guard_fst_of_not_issued h | rfl

theorem cbm_ptpDone (cfg : GuardCfg) (sym : String) (mem : GuardMem)
    (o : CycleObs) : (cycle_be_maintain cfg sym mem o).1.ptpDone = mem.ptpDone := by
  unfold cycle_be_maintain
  split_ifs
  · apply be_guard_ptpDone
  · rfl

theorem cbm_mono {cfg : GuardCfg} {sym : String} {mem : GuardMem}
    {o : CycleObs} {k : String × String} (h : k ∈ mem.beDone) :
    k ∈ (cycle_be_maintain cfg sym mem o).1.beDone := by
  unfold cycle_be_maintain
  split_ifs
  · exact be_guard_mono h
  · exact h

theorem cbe_of_done {cfg : GuardCfg} {sym : String} {mem : GuardMem}
    {o : CycleObs} {side : String} (hES : o.entryBeSide = side)
    (h : (sym, pyLower side) ∈ mem.beDone) :
    cycle_be_entry cfg sym mem o = (mem, none) := by
  unfold cycle_be_entry
  split_ifs
  · exact be_guard_of_done (by rw [hES]; exact h)
  · rfl

theorem cbe_beDone_of_some {cfg : GuardCfg} {sym : String} {mem : GuardMem}
    {o : CycleObs} {side : String} (hES : o.entryBeSide = side)
    (hEC : o.entryBeCallOk = true)
    (h : (cycle_be_entry cfg sym mem o).2.isSome = true) :
    (cycle_be_entry cfg sym mem o).1.beDone =
      (sym, pyLower side) :: mem.beDone := by
  subst hES
  unfold cycle_be_entry at *
  split_ifs at h ⊢ <;>
    first
      | (rw [hEC] at h ⊢
         exact be_guard_beDone_of_some h)
      | simp at h

theorem cbe_fst_of_not_issued {cfg : GuardCfg} {sym : String} {mem : GuardMem}
    {o : CycleObs} (h : (cycle_be_entry cfg sym mem o).2.isSome = false) :
    (cycle_be_entry cfg sym mem o).1 = mem := by
  unfold cycle_be_entry at *
  split_ifs at h ⊢ <;> first | exact be_guard_fst_of_not_issued h | rfl

theorem cbe_ptpDone (cfg : GuardCfg) (sym : String) (mem : GuardMem)
    (o : CycleObs) : (cycle_be_entry cfg sym mem o).1.ptpDone = mem.ptpDone := by
  unfold cycle_be_entry
  split_ifs
  · apply be_guard_ptpDone
  · rfl

theorem cbe_mono {cfg : GuardCfg} {sym : String} {mem : GuardMem}
    {o : CycleObs} {k : String × String} (h : k ∈ mem.beDone) :
    k ∈ (cycle_be_entry cfg sym mem o).1.beDone := by
  unfold cycle_be_entry
  split_ifs
  · exact be_guard_mono h
  · exact h

end PositionsGuard

namespace PositionsGuard

theorem guard_cycle_closed (cfg : GuardCfg) (sym : String) (mem : GuardMem)
    (o : CycleObs) (hPos : o.hasPosition = false) (hEnt : o.entryBeRuns = false) :
    guard_cycle cfg sym mem o = (mem, 0, 0) := by
  simp [guard_cycle, cycle_ptp, cycle_be_maintain, cycle_be_entry, hPos, hEnt]

theorem guard_cycle_mono_be {cfg : GuardCfg} {sym : String} {mem : GuardMem}
    {o : CycleObs} {k : String × String} (h : k ∈ mem.beDone) :
    k ∈ (guard_cycle cfg sym mem o).1.beDone := by
  simp only [guard_cycle]
  exact cbe_mono (cbm_mono (by rw [cycle_ptp_beDone]; exact h))

theorem guard_cycle_mono_ptp {cfg : GuardCfg} {sym : String} {mem : GuardMem}
    {o : CycleObs} {k : String × String} (h : k ∈ mem.ptpDone) :
    k ∈ (guard_cycle cfg sym mem o).1.ptpDone := by
  simp only [guard_cycle]
  rw [cbe_ptpDone, cbm_ptpDone]
  exact cycle_ptp_mono h

theorem cycle_be_bound (cfg : GuardCfg) (sym side : String) (mem : GuardMem)
    (o : CycleObs) (hSH : o.sideHint = side) (hES : o.entryBeSide = side)
    (hSL : o.slCallOk = true) (hEC : o.entryBeCallOk = true) :
    ((sym, pyLower side) ∈ mem.beDone →
      (guard_cycle cfg sym mem o).1.beDone = mem.beDone ∧
        (guard_cycle cfg sym mem o).2.1 = 0) ∧
    (guard_cycle cfg sym mem o).2.1 ≤ 1 ∧
    (1 ≤ (guard_cycle cfg sym mem o).2.1 →
      (sym, pyLower side) ∈ (guard_cycle cfg sym mem o).1.beDone) := by
  have hprB : (cycle_ptp cfg sym mem o).1.beDone = mem.beDone :=
    cycle_ptp_beDone cfg sym mem o
  simp only [guard_cycle]
  refine ⟨?_, ?_⟩
  · intro hk
    have hbrEq : cycle_be_maintain cfg sym (cycle_ptp cfg sym mem o).1 o =
        ((cycle_ptp cfg sym mem o).1, none) :=
      cbm_of_done hSH (by rw [hprB]; exact hk)
    rw [hbrEq]
    have herEq : cycle_be_entry cfg sym (cycle_ptp cfg sym mem o).1 o =
        ((cycle_ptp cfg sym mem o).1, none) :=
      cbe_of_done hES (by rw [hprB]; exact hk)
    simp [herEq, hprB]
  · cases hb : (cycle_be_maintain cfg sym (cycle_ptp cfg sym mem o).1 o).2.isSome with
    | true =>
      have hbeD := cbm_beDone_of_some hSH hSL hb
      have herEq : cycle_be_entry cfg sym
          (cycle_be_maintain cfg sym (cycle_ptp cfg sym mem o).1 o).1 o =
          ((cycle_be_maintain cfg sym (cycle_ptp cfg sym mem o).1 o).1, none) :=
        cbe_of_done hES (by rw [hbeD]; exact List.mem_cons_self _ _)
      refine ⟨?_, ?_⟩
      · rw [herEq]; simp
      · intro _
        rw [herEq]
        simp only
        rw [hbeD]
        exact List.mem_cons_self _ _
    | false =>
      have hbr1 : (cycle_be_maintain cfg sym (cycle_ptp cfg sym mem o).1 o).1 =
          (cycle_ptp cfg sym mem o).1 := cbm_fst_of_not_issued hb
      rw [hbr1]
      cases he : (cycle_be_entry cfg sym (cycle_ptp cfg sym mem o).1 o).2.isSome with
      | true =>
        have heD := cbe_beDone_of_some hES hEC he
        refine ⟨by simp, ?_⟩
        intro _
        rw [heD]
        exact List.mem_cons_self _ _
      | false =>
        refine ⟨by simp, ?_⟩
        intro hcontra
        simp [he] at hcontra
  done

theorem cycle_ptp_bound (cfg : GuardCfg) (sym side : String) (mem : GuardMem)
    (o : CycleObs) (hPS : o.posSide = side) (hOK : o.orderCallOk = true) :
    ((sym, pyLower side) ∈ mem.ptpDone →
      (guard_cycle cfg sym mem o).1.ptpDone = mem.ptpDone ∧
        (guard_cycle cfg sym mem o).2.2 = 0) ∧
    (guard_cycle cfg sym mem o).2.2 ≤ 1 ∧
    (1 ≤ (guard_cycle cfg sym mem o).2.2 →
      (sym, pyLower side) ∈ (guard_cycle cfg sym mem o).1.ptpDone) := by
  simp only [guard_cycle]
  have hpres : ∀ m : GuardMem,
      (cycle_be_entry cfg sym (cycle_be_maintain cfg sym m o).1 o).1.ptpDone =
        m.ptpDone := by
    intro m
    rw [cbe_ptpDone, cbm_ptpDone]
  refine ⟨?_, ?_, ?_⟩
  · intro hk
    have hprEq : cycle_ptp cfg sym mem o = (mem, false) := cycle_ptp_of_done hPS hk
    rw [hprEq]
    simp [hpres mem]
  · cases hp : (cycle_ptp cfg sym mem o).2 <;> simp
  · intro h1
    have hp : (cycle_ptp cfg sym mem o).2 = true := by
      cases hp : (cycle_ptp cfg sym mem o).2 with
      | true => rfl
      | false => rw [hp] at h1; simp at h1
    rw [hpres (cycle_ptp cfg sym mem o).1]
    exact cycle_ptp_issued hPS hOK hp

end PositionsGuard

namespace PositionsGuard

theorem run_be_bound (cfg : GuardCfg) (sym side : String) (trace : List CycleObs)
    (h : ∀ o ∈ trace, ObsGood side o) (mem : GuardMem) :
    ((sym, pyLower side) ∈ mem.beDone → (guard_run cfg sym mem trace).2.1 = 0) ∧
    (guard_run cfg sym mem trace).2.1 ≤ 1 := by
  induction trace generalizing mem with
  | nil => simp [guard_run]
  | cons o rest ih =>
    have hg : ObsGood side o := h o (List.mem_cons_self o rest)
    have hrest : ∀ o2 ∈ rest, ObsGood side o2 :=
      fun o2 h2 => h o2 (List.mem_cons_of_mem o h2)
    obtain ⟨hPS, hSH, hES, hOK, hSL, hEC⟩ := hg
    obtain ⟨hA, hC, hD⟩ := cycle_be_bound cfg sym side mem o hSH hES hSL hEC
    have ih2 := ih hrest (guard_cycle cfg sym mem o).1
    simp only [guard_run]
    constructor
    · intro hk
      obtain ⟨hEq, h0⟩ := hA hk
      have hr0 : (guard_run cfg sym (guard_cycle cfg sym mem o).1 rest).2.1 = 0 :=
        ih2.1 (by rw [hEq]; exact hk)
      simp [h0, hr0]
    · rcases Nat.lt_or_ge (guard_cycle cfg sym mem o).2.1 1 with hlt | hge
      · have h0 : (guard_cycle cfg sym mem o).2.1 = 0 := Nat.lt_one_iff.mp hlt
        have hr := ih2.2
        simp only [h0, Nat.zero_add]
        exact hr
      · have h1 : (guard_cycle cfg sym mem o).2.1 = 1 := le_antisymm hC hge
        have hr0 : (guard_run cfg sym (guard_cycle cfg sym mem o).1 rest).2.1 = 0 :=
          ih2.1 (hD hge)
        simp [h1, hr0]

theorem run_ptp_bound (cfg : GuardCfg) (sym side : String)
    (trace : List CycleObs) (h : ∀ o ∈ trace, ObsGood side o) (mem : GuardMem) :
    ((sym, pyLower side) ∈ mem.ptpDone → (guard_run cfg sym mem trace).2.2 = 0) ∧
    (guard_run cfg sym mem trace).2.2 ≤ 1 := by
  induction trace generalizing mem with
  | nil => simp [guard_run]
  | cons o rest ih =>
    have hg : ObsGood side o := h o (List.mem_cons_self o rest)
    have hrest : ∀ o2 ∈ rest, ObsGood side o2 :=
      fun o2 h2 => h o2 (List.mem_cons_of_mem o h2)
    obtain ⟨hPS, hSH, hES, hOK, hSL, hEC⟩ := hg
    obtain ⟨hA, hC, hD⟩ := cycle_ptp_bound cfg sym side mem o hPS hOK
    have ih2 := ih hrest (guard_cycle cfg sym mem o).1
    simp only [guard_run]
    constructor
    · intro hk
      obtain ⟨hEq, h0⟩ := hA hk
      have hr0 : (guard_run cfg sym (guard_cycle cfg sym mem o).1 rest).2.2 = 0 :=
        ih2.1 (by rw [hEq]; exact hk)
      simp [h0, hr0]
    · rcases Nat.lt_or_ge (guard_cycle cfg sym mem o).2.2 1 with hlt | hge
      · have h0 : (guard_cycle cfg sym mem o).2.2 = 0 := Nat.lt_one_iff.mp hlt
        have hr := ih2.2
        simp only [h0, Nat.zero_add]
        exact hr
      · have h1 : (guard_cycle cfg sym mem o).2.2 = 1 := le_antisymm hC hge
        have hr0 : (guard_run cfg sym (guard_cycle cfg sym mem o).1 rest).2.2 = 0 :=
          ih2.1 (hD hge)
        simp [h1, hr0]

end PositionsGuard

/-! Claim theorems. -/

open PositionsGuard in
/-- Claim C1: for every entry price above 0, every be_offset_pct and every
epsilon fraction above 0, the candidate break-even stop-loss price produced by
the break-even transition _maybe_breakeven is, for a long side, clamped to at
most entry * (1 - eps) and strictly below entry, and for any other side
clamped to at least entry * (1 + eps) and strictly above entry — never at or
beyond entry. -/
theorem C1_break_even_candidate_side_invariant (cfg : GuardCfg) (mem : GuardMem)
    (sym : String) (entryPx : ℚ) (side : String) (cur atr : ℚ) (callOk : Bool)
    (p : ℚ) (hE : 0 < entryPx) (hEps : 0 < cfg.beEps)
    (hIss : (be_guard cfg mem sym entryPx side cur atr callOk).2 = some p) :
    (pyLower side = "long" ∨ pyLower side = "buy" →
      p ≤ entryPx * (1 - cfg.beEps) ∧ p < entryPx) ∧
    (¬ (pyLower side = "long" ∨ pyLower side = "buy") →
      entryPx * (1 + cfg.beEps) ≤ p ∧ entryPx < p) := by
  have hp := be_guard_snd_eq_candidate hIss
  subst hp
  unfold be_candidate
  constructor
  · intro hside
    rw [if_pos hside]
    refine ⟨pyMin_le_right _ _, ?_⟩
    have h1 : entryPx * (1 - cfg.beEps) < entryPx := by nlinarith
    exact lt_of_le_of_lt (pyMin_le_right _ _) h1
  · intro hside
    rw [if_neg hside]
    refine ⟨le_pyMax_right _ _, ?_⟩
    have h1 : entryPx < entryPx * (1 + cfg.beEps) := by nlinarith
    exact lt_of_lt_of_le h1 (le_pyMax_right _ _)

open PositionsGuard in
/-- Witness for C1: entry 100, side long, offset 0.0005, eps 0.0001; the
submitted candidate is 99.99, below entry by the epsilon fraction. -/
theorem C1_witness :
    (pyLower ("long") = "long" ∨ pyLower ("long") = "buy" →
      (9999/100 : ℚ) ≤ 100 * (1 - cfg_defaults.beEps) ∧ (9999/100 : ℚ) < 100) ∧
    (¬ (pyLower ("long") = "long" ∨ pyLower ("long") = "buy") →
      100 * (1 + cfg_defaults.beEps) ≤ (9999/100 : ℚ) ∧ (100 : ℚ) < 9999/100) :=
  C1_break_even_candidate_side_invariant cfg_defaults ⟨[], []⟩ ("BTC") 100
    ("long") 110 2 true (9999/100) (by decide) (by decide) (by decide)

open PositionsGuard in
/-- Claim C2 (amended): when a polling cycle observes zero position size it
leaves the one-shot flag memory exactly unchanged, and no cycle ever removes
a flag; the flags persist for the process lifetime, so a subsequent new
position at the same (symbol, side) cannot re-trigger break-even or partial
take-profit within the same run. -/
theorem C2_flags_persist_on_close (cfg : GuardCfg) (sym : String) :
    (∀ (mem : GuardMem) (o : CycleObs), o.hasPosition = false →
      o.entryBeRuns = false → guard_cycle cfg sym mem o = (mem, 0, 0)) ∧
    (∀ (mem : GuardMem) (o : CycleObs) (k : String × String),
      k ∈ mem.beDone → k ∈ (guard_cycle cfg sym mem o).1.beDone) ∧
    (∀ (mem : GuardMem) (o : CycleObs) (k : String × String),
      k ∈ mem.ptpDone → k ∈ (guard_cycle cfg sym mem o).1.ptpDone) :=
  ⟨fun mem o h1 h2 => guard_cycle_closed cfg sym mem o h1 h2,
   fun _ _ _ h => guard_cycle_mono_be h,
   fun _ _ _ h => guard_cycle_mono_ptp h⟩

open PositionsGuard in
/-- Counterexample to C2 as stated: a profitable long cycle sets both flags
and fires both transitions once; a later cycle observing zero position size
does NOT clear the flags (the memory is unchanged, flags still present); a
subsequent identical profitable position at the same (symbol, side) then
triggers neither break-even nor partial take-profit again. -/
theorem C2_counterexample :
    guard_cycle cfg_defaults ("BTC") ⟨[], []⟩ obs_profitable =
      (⟨[("BTC", "long")], [("BTC", "long")]⟩, 1, 1) ∧
    guard_cycle cfg_defaults ("BTC") ⟨[("BTC", "long")], [("BTC", "long")]⟩
      obs_closed = (⟨[("BTC", "long")], [("BTC", "long")]⟩, 0, 0) ∧
    guard_cycle cfg_defaults ("BTC") ⟨[("BTC", "long")], [("BTC", "long")]⟩
      obs_profitable = (⟨[("BTC", "long")], [("BTC", "long")]⟩, 0, 0) := by
  refine ⟨?_, ?_, ?_⟩ <;> decide

/-- Claim C4 (code bug): in atr mode with the break-even trigger not reached,
maybe_breakeven does not return the None sentinel: the fall-through to the
percent-mode comparison reads the unassigned local variable need and raises
UnboundLocalError (modelled as Except.error), for long and short sides alike;
in pct mode the sentinel is returned as the docstring promises. -/
theorem C4_maybe_breakeven_raises :
    TrailingStop.maybe_breakeven 100 ("long") 100 2 ("atr") (1/2) (1/250)
      (1/2000) = .error () ∧
    TrailingStop.maybe_breakeven 100 ("short") 100 2 ("atr") (1/2) (1/250)
      (1/2000) = .error () ∧
    TrailingStop.maybe_breakeven 100 ("long") 100 2 ("pct") (1/2) (1/250)
      (1/2000) = .ok none ∧
    TrailingStop.maybe_breakeven 100 ("hold") 100 2 ("atr") (1/2) (1/250)
      (1/2000) = .ok none := by
  refine ⟨?_, ?_, ?_, ?_⟩ <;> rfl

theorem send_loop_succ (respAt : Nat → Option TrailingStop.RetCode)
    (attempt r : Nat) :
    TrailingStop.send_loop respAt attempt (r + 1) =
      match TrailingStop.assert_ok (respAt attempt) with
      | .ok _ => ⟨true, 1, 0⟩
      | .error _ =>
        if r = 0 then ⟨false, 1, 0⟩
        else
          ⟨(TrailingStop.send_loop respAt (attempt + 1) r).ok,
           (TrailingStop.send_loop respAt (attempt + 1) r).attempts + 1,
           (TrailingStop.send_loop respAt (attempt + 1) r).sleeps + 1⟩ := rfl

theorem send_loop_all_fail (respAt : Nat → Option TrailingStop.RetCode)
    (hfail : ∀ n, TrailingStop.assert_ok (respAt n) = .error ()) :
    ∀ (remaining attempt : Nat), 1 ≤ remaining →
      TrailingStop.send_loop respAt attempt remaining =
        ⟨false, remaining, remaining - 1⟩ := by
  intro remaining
  induction remaining with
  | zero => intro attempt h; exact absurd h (by omega)
  | succ r ih =>
    intro attempt _
    rw [send_loop_succ, hfail attempt]
    cases r with
    | zero => simp
    | succ r2 =>
      have hr := ih (attempt + 1) (by omega)
      simp [hr]

open TrailingStop in
/-- Claim C3 (amended): the write wrappers classify a response only as
success-or-110043 versus everything else; a response stream whose every
response fails that test — terminal invalid-parameter, auth and
insufficient-margin codes included — is retried with backoff sleeps up to
max_retries: the loop makes exactly max_retries attempts and max_retries - 1
backoff sleeps before the exception propagates.  Only
handle_bybit_error, which these wrappers never call, distinguishes terminal
codes. -/
theorem C3_terminal_codes_retried_like_transient
    (respAt : Nat → Option RetCode) (m : Nat) (hm : 1 ≤ m)
    (hfail : ∀ n, assert_ok (respAt n) = .error ()) :
    send_with_retries respAt m = ⟨false, m, m - 1⟩ :=
  send_loop_all_fail respAt hfail m 1 hm

open TrailingStop ErrorHandler in
/-- Counterexample to C3 as stated: with every response carrying the terminal
invalid-parameter code 10001 (not rate-limit classified), the wrapper makes 3
attempts and 2 backoff sleeps before propagating — not an immediate
propagation with no retry and no backoff. -/
theorem C3_counterexample :
    send_with_retries (fun _ => some (.int 10001)) 3 = ⟨false, 3, 2⟩ ∧
    handle_bybit_error none (some 10001) ("") [] false = .raised .invalidParams ∧
    is_retryable (some 10001) = false ∧
    ¬ (send_with_retries (fun _ => some (.int 10001)) 3).attempts = 1 ∧
    ¬ (send_with_retries (fun _ => some (.int 10001)) 3).sleeps = 0 := by
  refine ⟨?_, ?_, ?_, ?_, ?_⟩ <;> decide

open TrailingStop in
/-- Witness for C3: the terminal code 10001 with the default max_retries 3. -/
theorem C3_witness :
    send_with_retries (fun _ => some (.int 10001)) 3 = ⟨false, 3, 3 - 1⟩ :=
  C3_terminal_codes_retried_like_transient (fun _ => some (.int 10001)) 3
    (by decide) (fun _ => rfl)

open TrailingStop ErrorHandler in
/-- Claim C6: a response carrying the not-modified code 110043 (also 34040 in
the classifier handle_bybit_error) is treated as success: _assert_ok does not
raise on it whether the code arrives as an integer or as a string, the retry
wrapper returns the response after the first attempt with no retry and no
backoff sleep, and the classifier logs it and returns it as success (default
raise_on_not_modified). -/
theorem C6_not_modified_is_success (respAt : Nat → Option RetCode) (m : Nat)
    (hm : 1 ≤ m) (h1 : respAt 1 = some (.int 110043)) (hs : Option Nat)
    (hhs : hs ≠ some 429) (msg : String) (ignores : List Int) :
    assert_ok (some (.int 110043)) = .ok () ∧
    assert_ok (some (.str "110043")) = .ok () ∧
    send_with_retries respAt m = ⟨true, 1, 0⟩ ∧
    handle_bybit_error hs (some 110043) msg ignores false = .okNotModified ∧
    handle_bybit_error hs (some 34040) msg ignores false = .okNotModified := by
  have hsuc1 : is_success_response (some 110043) msg = false := by
    unfold is_success_response
    rw [if_neg (by decide : ¬ ((some (110043 : Int) : Option Int) = some 0))]
    apply decide_eq_false
    rintro ⟨h2 | h2, _⟩ <;> simp at h2
  have hsuc2 : is_success_response (some 34040) msg = false := by
    unfold is_success_response
    rw [if_neg (by decide : ¬ ((some (34040 : Int) : Option Int) = some 0))]
    apply decide_eq_false
    rintro ⟨h2 | h2, _⟩ <;> simp at h2
  refine ⟨rfl, rfl, ?_, ?_, ?_⟩
  · obtain ⟨m2, rfl⟩ : ∃ m2, m = m2 + 1 := ⟨m - 1, by omega⟩
    have hok : assert_ok (respAt 1) = .ok () := by rw [h1]; rfl
    simp [send_with_retries, send_loop, hok]
  · unfold handle_bybit_error
    rw [if_neg hhs, hsuc1]
    simp [ignore_as_success_default]
  · unfold handle_bybit_error
    rw [if_neg hhs, hsuc2]
    simp [ignore_as_success_default]

open TrailingStop ErrorHandler in
/-- Witness for C6: a stream answering 110043 to every attempt, max_retries 3,
no HTTP status, empty message, no extra ignore codes. -/
theorem C6_witness :
    assert_ok (some (.int 110043)) = .ok () ∧
    assert_ok (some (.str "110043")) = .ok () ∧
    send_with_retries (fun _ => some (.int 110043)) 3 = ⟨true, 1, 0⟩ ∧
    handle_bybit_error none (some 110043) ("") [] false = .okNotModified ∧
    handle_bybit_error none (some 34040) ("") [] false = .okNotModified :=
  C6_not_modified_is_success (fun _ => some (.int 110043)) 3 (by decide) rfl
    none (by decide) ("") []

open PositionsGuard in
/-- Claim C5: for every (symbol, side) and any number of polling cycles in one
process run during which the position keeps its side and every venue write
succeeds (in particular, while it stays open and profitable), the break-even
stop-loss submission is issued at most once and the partial-take-profit
reduce-only order is issued at most once, regardless of the number of
cycles. -/
theorem C5_at_most_once_per_run (cfg : GuardCfg) (sym side : String)
    (trace : List CycleObs) (h : ∀ o ∈ trace, ObsGood side o) :
    (guard_run cfg sym ⟨[], []⟩ trace).2.1 ≤ 1 ∧
    (guard_run cfg sym ⟨[], []⟩ trace).2.2 ≤ 1 :=
  ⟨(run_be_bound cfg sym side trace h ⟨[], []⟩).2,
   (run_ptp_bound cfg sym side trace h ⟨[], []⟩).2⟩

open PositionsGuard in
/-- Witness for C5: three consecutive profitable cycles with every venue call
succeeding; each transition fires at most once. -/
theorem C5_witness :
    (guard_run cfg_defaults ("BTC") ⟨[], []⟩
        [obs_profitable, obs_profitable, obs_profitable]).2.1 ≤ 1 ∧
    (guard_run cfg_defaults ("BTC") ⟨[], []⟩
        [obs_profitable, obs_profitable, obs_profitable]).2.2 ≤ 1 :=
  C5_at_most_once_per_run cfg_defaults ("BTC") ("long")
    [obs_profitable, obs_profitable, obs_profitable] (by decide)

open PositionManager in
/-- Claim C7 (amended): for every entry price above 0 and every ATR at least
0 (any sl multiplier), the entry stop-loss computed by open_position is
strictly below entry for a buy (long) and strictly above for a sell (short);
at the boundary ATR = 0 the stop distance falls back to the absolute constant
1e-9 — not a percentage of entry — which is nonzero, so the invariant holds
there too. -/
theorem C7_entry_sl_side_invariant (px atr sl_mult : ℚ) (side : String)
    (hPx : 0 < px) (hAtr : 0 ≤ atr) :
    (order_side_of side = "buy" →
      entry_sl_price px atr sl_mult (order_side_of side) < px) ∧
    (order_side_of side = "sell" →
      px < entry_sl_price px atr sl_mult (order_side_of side)) ∧
    entry_stop_dist 0 sl_mult = 1 / 10 ^ 9 ∧
    (0 : ℚ) < entry_stop_dist atr sl_mult := by
  have hd : (0 : ℚ) < entry_stop_dist atr sl_mult :=
    pyMax_pos_of_right _ _ (by norm_num)
  refine ⟨?_, ?_, ?_, hd⟩
  · intro hbuy
    unfold entry_sl_price
    rw [if_pos hbuy]
    linarith
  · intro hsell
    unfold entry_sl_price
    rw [if_neg (by rw [hsell]; decide)]
    linarith
  · unfold entry_stop_dist
    rw [zero_mul]
    decide

open PositionManager in
/-- Witness for C7: entry 100, ATR 0 (the boundary case), default multiplier
1.8, side long. -/
theorem C7_witness :
    (order_side_of ("long") = "buy" →
      entry_sl_price 100 0 (9/5) (order_side_of ("long")) < 100) ∧
    (order_side_of ("long") = "sell" →
      (100 : ℚ) < entry_sl_price 100 0 (9/5) (order_side_of ("long"))) ∧
    entry_stop_dist 0 (9/5) = 1 / 10 ^ 9 ∧
    (0 : ℚ) < entry_stop_dist 0 (9/5) :=
  C7_entry_sl_side_invariant 100 0 (9/5) ("long") (by decide) (by decide)

open PositionManager in
/-- Counterexample to C7 as stated: at ATR = 0 the fallback stop distance is
the constant 1e-9 whatever the entry price — the relative stop distance at
entry 100 differs from the one at entry 200 — so the fallback is not a
percentage-based distance. -/
theorem C7_counterexample :
    entry_stop_dist 0 (9/5) = 1 / 10 ^ 9 ∧
    (100 - entry_sl_price 100 0 (9/5) ("buy")) / 100 ≠
      (200 - entry_sl_price 200 0 (9/5) ("buy")) / 200 := by
  refine ⟨?_, ?_⟩ <;> decide

open TrailingStop in
/-- Claim C8 (amended): for every entry at least 1e-12 (the code divides by
max(entry, 1e-12)), every ATR and side, compute_trailing_from_atr returns
activation entry + max(k*ATR, entry*min_up_pct) for a long side and
entry - max(k*ATR, entry*min_down_pct) otherwise, and callback equal to the
fixed percentage when auto mode is off, else 100*(cb_from_atr_k*ATR/entry)
clamped to the band from 0.1 to 5.0; in particular entry 100, side short,
ATR 2, k 1.0, min_down 0.001, auto off, fixed 1.0 gives (98.0, 1.0). -/
theorem C8_compute_trailing_formula (entry : ℚ) (side : String)
    (atr k_activate min_up_pct min_down_pct cb_from_atr_k cb_fixed_pct : ℚ)
    (auto_cb : Bool) (hE : (1 : ℚ) / 10 ^ 12 ≤ entry) :
    (pyLower side = "long" ∨ pyLower side = "buy" →
      (compute_trailing_from_atr entry side atr k_activate min_up_pct
          min_down_pct cb_from_atr_k cb_fixed_pct auto_cb).1 =
        entry + max (k_activate * atr) (entry * min_up_pct)) ∧
    (¬ (pyLower side = "long" ∨ pyLower side = "buy") →
      (compute_trailing_from_atr entry side atr k_activate min_up_pct
          min_down_pct cb_from_atr_k cb_fixed_pct auto_cb).1 =
        entry - max (k_activate * atr) (entry * min_down_pct)) ∧
    (compute_trailing_from_atr entry side atr k_activate min_up_pct
        min_down_pct cb_from_atr_k cb_fixed_pct auto_cb).2 =
      (if auto_cb then
        max (1/10) (min (100 * (cb_from_atr_k * atr / entry)) 5)
      else cb_fixed_pct) ∧
    compute_trailing_from_atr 100 ("short") 2 1 (1/1000) (1/1000) (3/4) 1
      false = (98, 1) := by
  have hmax : pyMax entry (1 / 10 ^ 12) = entry := pyMax_eq_of_le hE
  refine ⟨?_, ?_, ?_, by decide⟩
  · intro hside
    simp only [compute_trailing_from_atr]
    rw [if_pos hside, pyMax_eq_max]
  · intro hside
    simp only [compute_trailing_from_atr]
    rw [if_neg hside, pyMax_eq_max]
  · cases auto_cb with
    | false => simp [compute_trailing_from_atr]
    | true =>
      simp only [compute_trailing_from_atr, if_true]
      rw [hmax, pyMax_eq_max, pyMin_eq_min]

open TrailingStop in
/-- Witness for C8 at the concrete short case of the spec scenario. -/
theorem C8_witness :
    (pyLower ("short") = "long" ∨ pyLower ("short") = "buy" →
      (compute_trailing_from_atr 100 ("short") 2 1 (1/1000) (1/1000) (3/4) 1
          false).1 = 100 + max ((1 : ℚ) * 2) (100 * (1/1000))) ∧
    (¬ (pyLower ("short") = "long" ∨ pyLower ("short") = "buy") →
      (compute_trailing_from_atr 100 ("short") 2 1 (1/1000) (1/1000) (3/4) 1
          false).1 = 100 - max ((1 : ℚ) * 2) (100 * (1/1000))) ∧
    (compute_trailing_from_atr 100 ("short") 2 1 (1/1000) (1/1000) (3/4) 1
        false).2 =
      (if false then max ((1 : ℚ)/10) (min (100 * ((3/4) * 2 / 100)) 5)
       else 1) ∧
    compute_trailing_from_atr 100 ("short") 2 1 (1/1000) (1/1000) (3/4) 1
      false = (98, 1) :=
  C8_compute_trailing_formula 100 ("short") 2 1 (1/1000) (1/1000) (3/4) 1
    false (by decide)

open TrailingStop ErrorHandler in
/-- Counterexample to C8 as stated: at entry 1e-13 (above 0, below the 1e-12
guard) with auto mode on, ATR 1e-14 and multiplier 1, the code returns
callback 1.0 while the claimed formula 100*(k*ATR/entry) clamped to the band
gives 5.0. -/
theorem C8_counterexample :
    (compute_trailing_from_atr (1/10^13) ("long") (1/10^14) 0 0 0 1 0
        true).2 = 1 ∧
    max ((1 : ℚ)/10) (min (100 * ((1 : ℚ) * (1/10^14) / (1/10^13))) 5) = 5 ∧
    (1 : ℚ) ≠ 5 := by
  refine ⟨by decide, ?_, by norm_num⟩
  rw [max_def, min_def]
  norm_num

open TrailingStop in
/-- Claim C9 (amended): for every side whose lowercased value is outside the
set of long and buy — None and the empty string included —
_position_idx_for_side returns 2 (the Short index); consequently the write
wrappers called with position_idx None or 0 and no side, and move_stop_loss
always (it forwards position_idx 0 and no side), submit positionIdx "2". -/
theorem C9_position_idx_defaults_short (side : Option String)
    (h1 : pyLower (side.getD "") ≠ "long")
    (h2 : pyLower (side.getD "") ≠ "buy") :
    position_idx_for_side side = 2 ∧
    position_idx_for_side none = 2 ∧
    position_idx_for_side (some ("")) = 2 ∧
    resolve_position_idx none side = 2 ∧
    resolve_position_idx (some 0) side = 2 ∧
    move_stop_loss_position_idx = 2 ∧
    payload_position_idx move_stop_loss_position_idx = "2" := by
  have hmain : position_idx_for_side side = 2 := by
    unfold position_idx_for_side
    rw [if_neg]
    rintro (h | h)
    · exact h1 h
    · exact h2 h
  refine ⟨hmain, by decide, by decide, ?_, ?_, by decide, by decide⟩
  · simpa [resolve_position_idx] using hmain
  · simpa [resolve_position_idx] using hmain

open TrailingStop in
/-- Witness for C9 at side sell (lowercased value outside long and buy). -/
theorem C9_witness :
    position_idx_for_side (some ("sell")) = 2 ∧
    position_idx_for_side none = 2 ∧
    position_idx_for_side (some ("")) = 2 ∧
    resolve_position_idx none (some ("sell")) = 2 ∧
    resolve_position_idx (some 0) (some ("sell")) = 2 ∧
    move_stop_loss_position_idx = 2 ∧
    payload_position_idx move_stop_loss_position_idx = "2" :=
  C9_position_idx_defaults_short (some ("sell")) (by decide) (by decide)

open TrailingStop in
/-- Counterexample to C9 as stated: the side value Long lies outside the
literal two-element set containing long and buy, yet _position_idx_for_side
returns 1, not 2 — the function lowercases before comparing. -/
theorem C9_counterexample :
    position_idx_for_side (some ("Long")) = 1 ∧
    ¬ (("Long" : String) = "long" ∨ ("Long" : String) = "buy") ∧
    (1 : Nat) ≠ 2 := by
  refine ⟨?_, ?_, ?_⟩ <;> decide

open PositionsGuard in
/-- Claim C10: a one-shot flag is recorded only after the corresponding venue
call returns without raising; when the call raises, the flag memory is
unchanged, and since the issuance decision is independent of the call
outcome, the transition is attempted again on a later cycle with the same
observations. -/
theorem C10_flags_set_only_on_success (cfg : GuardCfg) (mem : GuardMem)
    (symbol : String) (entryPx : ℚ) (side : String) (cur atr qtyAbs : ℚ) :
    (be_guard cfg mem symbol entryPx side cur atr false).1 = mem ∧
    (ptp_guard cfg mem symbol entryPx side atr cur qtyAbs false).1 = mem ∧
    (∀ callOk : Bool,
      (symbol, pyLower side) ∈
          (be_guard cfg mem symbol entryPx side cur atr callOk).1.beDone →
        (symbol, pyLower side) ∈ mem.beDone ∨
          (callOk = true ∧
            (be_guard cfg mem symbol entryPx side cur atr callOk).2.isSome =
              true)) ∧
    (∀ callOk : Bool,
      (symbol, pyLower side) ∈
          (ptp_guard cfg mem symbol entryPx side atr cur qtyAbs
              callOk).1.ptpDone →
        (symbol, pyLower side) ∈ mem.ptpDone ∨
          (callOk = true ∧
            (ptp_guard cfg mem symbol entryPx side atr cur qtyAbs callOk).2 =
              true)) ∧
    (be_guard cfg mem symbol entryPx side cur atr false).2 =
      (be_guard cfg mem symbol entryPx side cur atr true).2 ∧
    (ptp_guard cfg mem symbol entryPx side atr cur qtyAbs false).2 =
      (ptp_guard cfg mem symbol entryPx side atr cur qtyAbs true).2 := by
  refine ⟨be_guard_fst_callFalse _ _ _ _ _ _ _,
    ptp_guard_fst_callFalse _ _ _ _ _ _ _ _, ?_, ?_,
    be_guard_snd_indep _ _ _ _ _ _ _,
    ptp_guard_snd_indep _ _ _ _ _ _ _ _⟩
  · intro callOk hmem
    cases callOk with
    | false =>
      rw [be_guard_fst_callFalse] at hmem
      exact Or.inl hmem
    | true =>
      by_cases hdone : (symbol, pyLower side) ∈ mem.beDone
      · exact Or.inl hdone
      · right
        refine ⟨rfl, ?_⟩
        cases hsome : (be_guard cfg mem symbol entryPx side cur atr
            true).2.isSome with
        | true => rfl
        | false =>
          rw [be_guard_fst_of_not_issued hsome] at hmem
          exact absurd hmem hdone
  · intro callOk hmem
    cases callOk with
    | false =>
      rw [ptp_guard_fst_callFalse] at hmem
      exact Or.inl hmem
    | true =>
      by_cases hdone : (symbol, pyLower side) ∈ mem.ptpDone
      · exact Or.inl hdone
      · right
        refine ⟨rfl, ?_⟩
        cases hsnd : (ptp_guard cfg mem symbol entryPx side atr cur qtyAbs
            true).2 with
        | true => rfl
        | false =>
          rw [ptp_guard_fst_of_not_issued hsnd] at hmem
          exact absurd hmem hdone
